import Mathlib

/-!
Shallow embedding of `src/sshdconfig/src/config/config_data.rs` (the
sshdconfig configuration reconciler) together with the data types that file
references. Stateful Rust methods taking `&self` are embedded as pure
functions that return the receiver unchanged, the `Result` value, and an
explicit trace of the external calls the body makes (file writes, validator
and reload invocations, console output), so that frame and ordering
properties can be stated over the trace.
-/

/-- Modelled from the spec: `KeywordType` lives in `config/subcontainer.rs`,
which is not among the provided sources. The spec's data model gives a closed
variant over directive argument shapes: `Flag`, `SingleValue(string)`,
`MultiValue(ordered sequence of string)`, `Absent`. -/
inductive KeywordType
  | Flag : KeywordType
  | SingleValue : String → KeywordType
  | MultiValue : List String → KeywordType
  | Absent : KeywordType
  deriving DecidableEq

/-- Modelled from the spec: `SubContainer` lives in `config/subcontainer.rs`,
not among the provided sources. The spec's `KeywordEntry` is
`{ value: KeywordType, is_default: bool }` (the keyword name is the lookup
key). -/
structure SubContainer where
  value : KeywordType
  is_default : Bool
  deriving DecidableEq

/-- Modelled from the spec: `UpdateKind` lives in `config/subcontainer.rs`,
not among the provided sources. Per-keyword diff tag: `Add`, `Modify`,
`Remove`. -/
inductive UpdateKind
  | Add : UpdateKind
  | Modify : UpdateKind
  | Remove : UpdateKind
  deriving DecidableEq

/-- Modelled from the spec: `SshdConfigError` lives in `sshdconfig_error.rs`,
not among the provided sources. The spec's error taxonomy (section 7) names
six kinds. -/
inductive SshdConfigError
  | MalformedKeywordError : SshdConfigError
  | TamperedFileError : SshdConfigError
  | ValidationRejected : SshdConfigError
  | InconsistentDiffError : SshdConfigError
  | ReloadFailed : SshdConfigError
  | BackupFailed : SshdConfigError
  deriving DecidableEq

/-- `ConfigData` (config_data.rs): `config_lookup: HashMap<String, SubContainer>`
embedded as an association list, and the managed file path `config_filepath`. -/
structure ConfigData where
  config_lookup : List (String × SubContainer)
  config_filepath : String
  deriving DecidableEq

/-- `ConfigData::apply_config` (config_data.rs): stub body, returns `false`. -/
def ConfigData.apply_config (_self : ConfigData) : Bool :=
  false

/-- `ConfigData::backup_file` (config_data.rs): stub body, returns `false`. -/
def ConfigData.backup_file (_self : ConfigData) : Bool :=
  false

/-- `ConfigData::file_check` (config_data.rs): stub body, returns `false`. -/
def ConfigData.file_check (_self : ConfigData) : Bool :=
  false

/-- `ConfigData::compare` (config_data.rs): the body is literally
`(None, None)` for every pair of receivers. -/
def ConfigData.compare (_self _config : ConfigData) :
    Option (List (String × SubContainer)) × Option (List (String × UpdateKind)) :=
  (none, none)

/-- `ConfigData::update` (config_data.rs): stub body, returns `false` for
every input and touches nothing. -/
def ConfigData.update (_self : ConfigData)
    (_config : List (String × SubContainer))
    (_update_kind : List (String × UpdateKind)) : Bool :=
  false

/-- The external calls a method body of `Invoke for ConfigData` can make;
a trace of these is the observable effect of one invocation. -/
inductive Effect
  | fileCheck : Effect
  | exportJson : Option (List String) → Effect
  | printLine : String → Effect
  | updateCall : Effect
  | backupFileCall : Effect
  | exportSshdConfig : String → Effect
  | validateConfig : String → Effect
  | applyConfigCall : Effect
  deriving DecidableEq

/-- An effect that stages, validates, writes, backs up or reloads — everything
beyond the read-only integrity check and report output. -/
def Effect.isMutationStep : Effect → Bool
  | Effect.updateCall => true
  | Effect.backupFileCall => true
  | Effect.exportSshdConfig _ => true
  | Effect.validateConfig _ => true
  | Effect.applyConfigCall => true
  | _ => false

/-- The literal `temp_filepath` string of `Invoke::set` (config_data.rs). -/
def temp_filepath : String :=
  "temp file path"

/-- What `println!` with two escaped braces prints in `Invoke::set` and
`Invoke::test` when the diff is `None`: the two-character text \x7b\x7d. -/
def emptyJsonOutput : String :=
  "\x7b\x7d"

/-- The `Some(diff) => Some(update_kind)` arm of `Invoke::set`
(config_data.rs): call `update` (result discarded), call `backup_file`
(result discarded), export to the temporary file, run `validate_config` on
it, and only if the verdict is valid export to the managed path and call
`apply_config` (result discarded). `is_valid` abstracts the verdict of
`validate_config`, the external validator collaborator whose code
(`config/utils.rs`) is not among the provided sources. -/
def ConfigData.setMutationArm (self : ConfigData)
    (diff : List (String × SubContainer))
    (update_kind : List (String × UpdateKind)) (is_valid : Bool) : List Effect :=
  let _update_result := self.update diff update_kind
  let _backup_result := self.backup_file
  [Effect.updateCall, Effect.backupFileCall,
    Effect.exportSshdConfig temp_filepath, Effect.validateConfig temp_filepath]
    ++ (if is_valid then
          let _apply_result := self.apply_config
          [Effect.exportSshdConfig self.config_filepath, Effect.applyConfigCall]
        else [])

/-- `Invoke::get` for `ConfigData` (config_data.rs): runs `file_check`
(result discarded), calls `export_json` with the optional keyword filter,
returns `Ok(())`. The receiver is `&self`, so it comes back unchanged. -/
def ConfigData.get (self : ConfigData) (keywords : Option (List String)) :
    ConfigData × Except SshdConfigError Unit × List Effect :=
  let _fc := self.file_check
  (self, Except.ok (), [Effect.fileCheck, Effect.exportJson keywords])

/-- `Invoke::set` for `ConfigData` (config_data.rs): runs `file_check`
(result discarded), computes `other.compare(self)`, then matches on the diff:
the `Some`/`Some` arm is `setMutationArm`, the `Some`/`None` arm prints a
parse-failure line, the `None` arm prints the empty-JSON line. Always returns
`Ok(())`. `is_valid_env` abstracts what `validate_config` would answer if the
mutation arm were reached. -/
def ConfigData.set (is_valid_env : Bool) (self other : ConfigData) :
    ConfigData × Except SshdConfigError Unit × List Effect :=
  let _fc := self.file_check
  let (diff, update_kind) := other.compare self
  let branch : List Effect :=
    match diff with
    | some d =>
      match update_kind with
      | some uk => self.setMutationArm d uk is_valid_env
      | none => [Effect.printLine "failed to parse update kind"]
    | none => [Effect.printLine emptyJsonOutput]
  (self, Except.ok (), Effect.fileCheck :: branch)

/-- `Invoke::test` for `ConfigData` (config_data.rs): runs `file_check`
(result discarded), computes `self.compare(other)`, then either exports the
diff as JSON or prints the empty-JSON line. Always returns `Ok(())`. -/
def ConfigData.test (self other : ConfigData) :
    ConfigData × Except SshdConfigError Unit × List Effect :=
  let _fc := self.file_check
  let (diff, _) := self.compare other
  let branch : List Effect :=
    match diff with
    | some _ => [Effect.exportJson none]
    | none => [Effect.printLine emptyJsonOutput]
  (self, Except.ok (), Effect.fileCheck :: branch)

/-- A concrete snapshot for witnesses: empty lookup, the literal placeholder
path of `ConfigData::new`. -/
def sampleConfig : ConfigData :=
  { config_lookup := [], config_filepath := "not implemented yet" }

/-- A concrete one-entry snapshot for witnesses. -/
def samplePortConfig : ConfigData :=
  { config_lookup := [("Port", { value := KeywordType.SingleValue "1234", is_default := false })],
    config_filepath := "not implemented yet" }

/-- C3: `test` only runs the integrity check and the diff and reports it; its
trace holds no staging, validation, write, backup or reload effect, the
receiver (and with it `config_lookup`) comes back unchanged, and the
production of the report is the only output. -/
theorem test_is_read_only (self other : ConfigData) :
    (self.test other).1 = self ∧
    (∀ e ∈ (self.test other).2.2, e.isMutationStep = false) ∧
    (self.test other).2.2 = [Effect.fileCheck, Effect.printLine emptyJsonOutput] := by
  refine ⟨rfl, ?_, rfl⟩
  intro e he
  simp [ConfigData.test, ConfigData.compare] at he
  rcases he with h | h <;> simp [h, Effect.isMutationStep]

/-- C4: a `set` call whose diff is empty (the `None` diff of
`ConfigData::compare`) is a no-op: no backup, no file write, no reload, and
the receiver is unchanged. -/
theorem set_empty_diff_noop (v : Bool) (self other : ConfigData)
    (h : (other.compare self).1 = none) :
    (ConfigData.set v self other).1 = self ∧
    Effect.backupFileCall ∉ (ConfigData.set v self other).2.2 ∧
    (∀ p, Effect.exportSshdConfig p ∉ (ConfigData.set v self other).2.2) ∧
    Effect.applyConfigCall ∉ (ConfigData.set v self other).2.2 := by
  refine ⟨rfl, ?_, ?_, ?_⟩ <;>
    simp [ConfigData.set, ConfigData.compare, emptyJsonOutput]

/-- C4 witness: the no-op behaviour of `set` at the concrete pair of
snapshots `sampleConfig`, `samplePortConfig`. -/
theorem set_empty_diff_noop_witness :
    (ConfigData.set true sampleConfig samplePortConfig).1 = sampleConfig ∧
    Effect.backupFileCall ∉ (ConfigData.set true sampleConfig samplePortConfig).2.2 ∧
    (∀ p, Effect.exportSshdConfig p ∉ (ConfigData.set true sampleConfig samplePortConfig).2.2) ∧
    Effect.applyConfigCall ∉ (ConfigData.set true sampleConfig samplePortConfig).2.2 :=
  set_empty_diff_noop true sampleConfig samplePortConfig rfl

/-- C8: the diff of a snapshot against itself is empty (`compare` returns the
`(None, None)` that the caller treats as the empty diff), and `compare` is a
pure function, so repeated calls on the same pair yield identical output. -/
theorem diff_self_empty_and_deterministic (S A B : ConfigData) :
    S.compare S = (none, none) ∧ A.compare B = A.compare B :=
  ⟨rfl, rfl⟩

/-- C9: `compare` returns `(None, None)` for every pair, so every `set` takes
the empty-diff branch: its trace is exactly the integrity-check stub followed
by the empty-JSON print — no `update`, no `backup_file`, no exporter, no
validator, no `apply_config` — and the receiver is unchanged. -/
theorem compare_always_none_set_noop (a b : ConfigData) :
    a.compare b = (none, none) ∧
    (∀ v : Bool, (ConfigData.set v a b).2.2 =
      [Effect.fileCheck, Effect.printLine emptyJsonOutput] ∧
      (ConfigData.set v a b).1 = a) :=
  ⟨rfl, fun _ => ⟨rfl, rfl⟩⟩

/-- C10: every invocation of `get`, `set` and `test` returns `Ok(())`, and
the booleans of `file_check`, `update`, `backup_file` and `apply_config`
are the constant `false`, discarded by all three entry points. -/
theorem invoke_always_ok (v : Bool) (self other : ConfigData)
    (ks : Option (List String)) (c : List (String × SubContainer))
    (u : List (String × UpdateKind)) :
    (self.get ks).2.1 = Except.ok () ∧
    (ConfigData.set v self other).2.1 = Except.ok () ∧
    (self.test other).2.1 = Except.ok () ∧
    self.file_check = false ∧
    self.update c u = false ∧
    self.backup_file = false ∧
    self.apply_config = false :=
  ⟨rfl, rfl, rfl, rfl, rfl, rfl, rfl⟩

/-- C1 (scaffold divergence): `file_check` is a stub returning `false` and
every caller discards it — `get`, `set` and `test` return `Ok(())` whatever
the state of the managed file, so no invocation ever fails with
`TamperedFileError`. -/
theorem tamper_never_reported (self other : ConfigData)
    (ks : Option (List String)) (v : Bool) :
    self.file_check = false ∧
    (self.get ks).2.1 = Except.ok () ∧
    (ConfigData.set v self other).2.1 = Except.ok () ∧
    (self.test other).2.1 = Except.ok () ∧
    (self.get ks).2.1 ≠ Except.error SshdConfigError.TamperedFileError :=
  ⟨rfl, rfl, rfl, rfl, fun h => Except.noConfusion h⟩

/-- C2 (scaffold divergence): `set` never invokes the external validator
(the `Some` diff arm is unreachable because `compare` returns `(None, None)`)
and always returns `Ok(())`, never `ValidationRejected`. -/
theorem validator_never_consulted (v : Bool) (self other : ConfigData) :
    (ConfigData.set v self other).2.1 = Except.ok () ∧
    (∀ p, Effect.validateConfig p ∉ (ConfigData.set v self other).2.2) ∧
    (ConfigData.set v self other).2.1 ≠ Except.error SshdConfigError.ValidationRejected := by
  refine ⟨rfl, ?_, fun h => Except.noConfusion h⟩
  simp [ConfigData.set, ConfigData.compare, emptyJsonOutput]

/-- C5 (scaffold divergence): in the source's mutation arm of `set`, the
`backup_file` call comes before the `validate_config` call and fires even
when the verdict is invalid; and in the only reachable path of `set`
(`compare` yields `None`), no backup ever happens at all. -/
theorem backup_precedes_validation (self : ConfigData)
    (d : List (String × SubContainer)) (uk : List (String × UpdateKind)) :
    self.setMutationArm d uk false =
      [Effect.updateCall, Effect.backupFileCall,
        Effect.exportSshdConfig temp_filepath, Effect.validateConfig temp_filepath] ∧
    (∀ v other, Effect.backupFileCall ∉ (ConfigData.set v self other).2.2) := by
  refine ⟨rfl, ?_⟩
  intro v other
  simp [ConfigData.set, ConfigData.compare, emptyJsonOutput]

/-- C6 (scaffold divergence): `apply_config` (the reload) is a stub returning
`false` — the reload always reports failure — yet `set` discards the value
and returns `Ok(())`, never `ReloadFailed`. -/
theorem reload_failure_ignored (v : Bool) (self other : ConfigData) :
    self.apply_config = false ∧
    (ConfigData.set v self other).2.1 = Except.ok () ∧
    (ConfigData.set v self other).2.1 ≠ Except.error SshdConfigError.ReloadFailed :=
  ⟨rfl, rfl, fun h => Except.noConfusion h⟩

/-- C7 (scaffold divergence): `update` is a stub that returns `false`
(its success/failure flag reports failure) for every `(changed, update_kinds)`
pair — including the pair of an empty diff — and never raises
`InconsistentDiffError`; its `Bool` result is discarded by `set`. -/
theorem update_always_reports_failure (self : ConfigData)
    (c : List (String × SubContainer)) (u : List (String × UpdateKind)) :
    self.update c u = false ∧ self.update [] [] = false :=
  ⟨rfl, rfl⟩
